import Mathlib

/-!
Verification of the Budget-Buddy backend core logic against its
natural-language specification.  The definitions below are shallow
embeddings of the Python source:

* `BudgetBuddy/db_router.py` — the `DatabaseRouter` class,
* `accounts/services.py` — `UserService.get_user_stats`,
* `finance/models.py` — `Transaction.CATEGORY_CHOICES`, `Budget` and its
  `unique_together` constraint,
* `finance/serializers.py` / `finance/views.py` — budget creation,
* `accounts/serializers.py` / `accounts/views.py` — registration and login.

Django machinery is modelled explicitly where its behaviour is what the
spec talks about: ORM filter keywords resolve against the model's field
names (an unresolvable keyword raises `FieldError`), and the database
enforces the `unique_together` constraint by raising `IntegrityError`.
-/

namespace BudgetBuddy

/-- Decidable equality for `Except`, so that concrete runs of the
fallible operations can be checked by `decide`. -/
instance {ε α : Type} [DecidableEq ε] [DecidableEq α] : DecidableEq (Except ε α)
  | .ok x, .ok y => decidable_of_iff (x = y) (by simp)
  | .ok _, .error _ => isFalse (by simp)
  | .error _, .ok _ => isFalse (by simp)
  | .error x, .error y => decidable_of_iff (x = y) (by simp)

/-! ## Database router (`BudgetBuddy/db_router.py`) -/

/-- The privileged app labels `['accounts', 'finance']` that the router
checks `model._meta.app_label` against. -/
def routedApps : List String := ["accounts", "finance"]

/-- `DatabaseRouter.db_for_read`: models of apps in `routedApps` read from
`'supabase'`, every other model reads from `'default'`. -/
def db_for_read (app_label : String) : String :=
  if app_label ∈ routedApps then "supabase" else "default"

/-- `DatabaseRouter.db_for_write`: the same decision for writes. -/
def db_for_write (app_label : String) : String :=
  if app_label ∈ routedApps then "supabase" else "default"

/-- The router's set `db_set = {'default', 'supabase'}` of known database
aliases. -/
def dbSet : List String := ["default", "supabase"]

/-- `DatabaseRouter.allow_relation`: returns `True` when both objects
reside in a known database, `None` (modelled as `none`) otherwise.  The
Python function never returns `False`. -/
def allow_relation (db1 db2 : String) : Option Bool :=
  if db1 ∈ dbSet ∧ db2 ∈ dbSet then some true else none

/-- `DatabaseRouter.allow_migrate`: apps in `routedApps` may migrate only
on `'supabase'`; all other apps only on `'default'`. -/
def allow_migrate (db app_label : String) : Bool :=
  if app_label ∈ routedApps then db == "supabase" else db == "default"

/-! ## Claims about the router -/

/-- C1: for every model whose owning app label is in the privileged set
{"accounts", "finance"}, both `db_for_read` and `db_for_write` return
`'supabase'`; for every other app label both return `'default'`. -/
theorem routing_read_write_decision (app_label : String) :
    (app_label ∈ routedApps →
      db_for_read app_label = "supabase" ∧ db_for_write app_label = "supabase") ∧
    (app_label ∉ routedApps →
      db_for_read app_label = "default" ∧ db_for_write app_label = "default") := by
  constructor
  · intro h
    simp [db_for_read, db_for_write, h]
  · intro h
    simp [db_for_read, db_for_write, h]

/-- Witness for C1: the decision evaluated at the privileged app label
`"accounts"` and at the unprivileged label `"blog"`. -/
theorem routing_read_write_decision_witness :
    (db_for_read "accounts" = "supabase" ∧ db_for_write "accounts" = "supabase") ∧
    (db_for_read "blog" = "default" ∧ db_for_write "blog" = "default") :=
  ⟨(routing_read_write_decision "accounts").1 (by decide),
   (routing_read_write_decision "blog").2 (by decide)⟩

/-- C5: `allow_migrate` permits a migration exactly when either the app
label is privileged and the database is `'supabase'`, or the app label is
not privileged and the database is `'default'`. -/
theorem migrate_placement_decision (db app_label : String) :
    allow_migrate db app_label = true ↔
      ((app_label ∈ routedApps ∧ db = "supabase") ∨
       (app_label ∉ routedApps ∧ db = "default")) := by
  unfold allow_migrate
  by_cases h : app_label ∈ routedApps <;> simp [h]

/-- C6: `allow_relation` returns `True` exactly when both objects reside
in a known database alias, returns `None` whenever either resides outside
`{'default', 'supabase'}`, and never returns `False`. -/
theorem relation_decision (db1 db2 : String) :
    (allow_relation db1 db2 = some true ↔ db1 ∈ dbSet ∧ db2 ∈ dbSet) ∧
    (allow_relation db1 db2 = none ↔ (db1 ∉ dbSet ∨ db2 ∉ dbSet)) ∧
    allow_relation db1 db2 ≠ some false := by
  unfold allow_relation
  by_cases h1 : db1 ∈ dbSet <;> by_cases h2 : db2 ∈ dbSet <;>
    simp [h1, h2]

/-! ## Data model (`finance/models.py`, `accounts/models.py`)

Amounts are `DecimalField(max_digits=12, decimal_places=2)` in the source;
they are modelled as integers (the claims use whole amounts).  The
auto-set `created_at` timestamps play no role in any claim and are left
out of the rows. -/

/-- A calendar date, as stored by Django's `DateField`. -/
structure Date where
  year : Nat
  month : Nat
  day : Nat
deriving DecidableEq, Repr

/-- A row of the `Transaction` table (`finance/models.py`): surrogate id,
foreign key to `User`, category code, direction (`type`), amount,
optional note and date. -/
structure Transaction where
  transaction_id : Nat
  user_id : Nat
  category : String
  type : String
  amount : Int
  note : Option String
  date : Date
deriving DecidableEq, Repr

/-- A row of the `Budget` table (`finance/models.py`): foreign key to
`User`, category code, amount and target month. -/
structure BudgetRow where
  budget_id : Nat
  user_id : Nat
  category : String
  budget_amount : Int
  cycle_month : Date
deriving DecidableEq, Repr

/-- `Transaction.CATEGORY_CHOICES` from `finance/models.py`: the fixed
closed enumeration of 10 `(code, label)` pairs, in source order.
`Budget.CATEGORY_CHOICES` aliases the same list. -/
def CATEGORY_CHOICES : List (String × String) :=
  [("food", "อาหาร"),
   ("transport", "เดินทาง"),
   ("shopping", "ช้อปปิ้ง"),
   ("health", "สุขภาพ"),
   ("education", "การศึกษา"),
   ("bills", "ค่าน้ำค่าไฟ"),
   ("entertainment", "บันเทิง"),
   ("savings", "ออมเงิน"),
   ("salary", "เงินเดือน"),
   ("others", "อื่นๆ")]

/-! ## ORM filter keywords

`UserService.get_user_stats` builds Django querysets such as
`Transaction.objects.filter(user=user, transaction_type='income', ...)`.
Django resolves every filter keyword against the model's declared fields
(and lookups such as `date__month`); an unknown keyword raises
`FieldError`.  The resolution table below lists exactly the lookups the
active `Transaction` model supports for the keywords the services use. -/

/-- A value a filter condition compares a field against. -/
inductive FilterVal
  | str (s : String)
  | int (n : Int)
deriving DecidableEq, Repr

/-- Resolution of a filter keyword against the `Transaction` model's
fields.  The model declares `transaction_id`, `user`, `category`, `type`,
`amount`, `note`, `date` and `created_at`; there is no field named
`transaction_type`, so that keyword resolves to `none`. -/
def Transaction.resolveKw (kw : String) : Option (Transaction → FilterVal) :=
  match kw with
  | "transaction_id" => some fun t => .int t.transaction_id
  | "user" => some fun t => .int t.user_id
  | "category" => some fun t => .str t.category
  | "type" => some fun t => .str t.type
  | "amount" => some fun t => .int t.amount
  | "date__month" => some fun t => .int t.date.month
  | "date__year" => some fun t => .int t.date.year
  | _ => none

/-- `Transaction.objects.filter(**conds)`: raises `FieldError` if any
keyword fails to resolve, otherwise keeps the rows matching every
condition. -/
def txFilter (conds : List (String × FilterVal)) (txs : List Transaction) :
    Except String (List Transaction) :=
  match conds.find? (fun c => (Transaction.resolveKw c.1).isNone) with
  | some c => .error ("FieldError: Cannot resolve keyword " ++ c.1)
  | none => .ok (txs.filter fun t => conds.all fun c =>
      match Transaction.resolveKw c.1 with
      | some f => f t == c.2
      | none => false)

/-! ## Aggregation service (`accounts/services.py`, `UserService.get_user_stats`) -/

/-- The record `get_user_stats` is meant to return. -/
structure Stats where
  transactions_count : Nat
  monthly_income : Int
  monthly_expense : Int
  monthly_balance : Int
  budgets_count : Nat
deriving DecidableEq, Repr

/-- `UserService.get_user_stats(user)` from `accounts/services.py`,
with the implicit `datetime.now()` month/year passed explicitly.  Its
monthly filters use the keyword `transaction_type`, which does not
resolve on the active `Transaction` model (the field is named `type`),
so the queryset construction raises.  The `aggregate(total=Sum('amount'))
['total'] or 0` defaulting is the list sum (empty sum is `0`). -/
def get_user_stats (txs : List Transaction) (budgets : List BudgetRow)
    (userId : Nat) (current_month current_year : Nat) : Except String Stats := do
  let userTx ← txFilter [("user", .int userId)] txs
  let transactions_count := userTx.length
  let incomeTx ← txFilter
    [("user", .int userId), ("transaction_type", .str "income"),
     ("date__month", .int current_month), ("date__year", .int current_year)] txs
  let monthly_income := (incomeTx.map Transaction.amount).sum
  let expenseTx ← txFilter
    [("user", .int userId), ("transaction_type", .str "expense"),
     ("date__month", .int current_month), ("date__year", .int current_year)] txs
  let monthly_expense := (expenseTx.map Transaction.amount).sum
  let budgets_count := (budgets.filter fun b => b.user_id == userId).length
  return { transactions_count, monthly_income, monthly_expense,
           monthly_balance := monthly_income - monthly_expense, budgets_count }

/-- The three-transaction store from the spec's aggregation example:
income 1000 on 2025-09-05, expense 300 on 2025-09-10, expense 50 on
2025-08-01, all owned by user 1. -/
def exampleTxs : List Transaction :=
  [⟨1, 1, "salary", "income", 1000, none, ⟨2025, 9, 5⟩⟩,
   ⟨2, 1, "food", "expense", 300, none, ⟨2025, 9, 10⟩⟩,
   ⟨3, 1, "food", "expense", 50, none, ⟨2025, 8, 1⟩⟩]

/-- C2: evaluation of the code at the spec's worked example.  Instead of
returning income=1000, expense=300, balance=700 for September 2025,
`get_user_stats` raises `FieldError`: its monthly filters use the keyword
`transaction_type`, but the active `Transaction` model names that field
`type`. -/
theorem stats_example_raises_field_error :
    get_user_stats exampleTxs [] 1 9 2025 =
      .error "FieldError: Cannot resolve keyword transaction_type" := by
  rfl

/-- C4: for every store, user and month — in particular a user with zero
transactions in the month — `get_user_stats` raises `FieldError` rather
than returning the all-zero record: the `transaction_type` filter keyword
never resolves, independent of the stored data. -/
theorem stats_never_returns_zero_record (txs : List Transaction)
    (budgets : List BudgetRow) (userId current_month current_year : Nat) :
    get_user_stats txs budgets userId current_month current_year =
      .error "FieldError: Cannot resolve keyword transaction_type" := by
  rfl

/-! ## Category enumeration endpoint (`finance/serializers.py`, `finance/views.py`) -/

/-- One `{"value": k, "label": v}` item built by
`CategoryChoiceSerializer.get_list`. -/
structure ChoiceItem where
  value : String
  label : String
deriving DecidableEq, Repr

/-- `CategoryChoiceSerializer.get_list`: the fixed
`Transaction.CATEGORY_CHOICES` mapped to value/label items. -/
def get_list : List ChoiceItem :=
  CATEGORY_CHOICES.map fun p => ⟨p.1, p.2⟩

/-- The `category_choices` view (`finance/views.py`): responds with
`get_list`, reading nothing from the store. -/
def category_choices (txs : List Transaction) (budgets : List BudgetRow) :
    List ChoiceItem :=
  get_list

/-- C7: whatever data is stored, the category enumeration exposed by the
endpoint is exactly the 10 fixed value/label pairs in their fixed order,
beginning with food→"อาหาร", containing salary→"เงินเดือน", and ending with
others→"อื่นๆ". -/
theorem category_enumeration_fixed (txs : List Transaction)
    (budgets : List BudgetRow) :
    category_choices txs budgets =
      [⟨"food", "อาหาร"⟩, ⟨"transport", "เดินทาง"⟩, ⟨"shopping", "ช้อปปิ้ง"⟩,
       ⟨"health", "สุขภาพ"⟩, ⟨"education", "การศึกษา"⟩, ⟨"bills", "ค่าน้ำค่าไฟ"⟩,
       ⟨"entertainment", "บันเทิง"⟩, ⟨"savings", "ออมเงิน"⟩, ⟨"salary", "เงินเดือน"⟩,
       ⟨"others", "อื่นๆ"⟩] ∧
    (category_choices txs budgets).length = 10 := by
  exact ⟨rfl, rfl⟩

/-! ## Budget creation (`finance/serializers.py`, `finance/views.py`)

`create_budget` runs `BudgetCreateSerializer` (fields `category`,
`budget_amount`, `cycle_month`) and, when valid, calls
`Budget.objects.create(user=request.user, **validated_data)`.  Because
`user` is not among the serializer's fields, DRF skips the
`unique_together` validator ("Skip if serializer does not map to all
unique together sources"), so serializer validation checks only the
category choice; a duplicate `(user, category, cycle_month)` is caught by
the store-level unique constraint, which raises `IntegrityError` at the
insert. -/

/-- The 10 valid category codes, the first components of
`CATEGORY_CHOICES` (what the `ChoiceField` accepts). -/
def categoryCodes : List String := CATEGORY_CHOICES.map Prod.fst

/-- The two ways budget creation can fail: a serializer validation error
(HTTP 400 with `ser.errors`) or a database integrity error (uncaught,
HTTP 500). -/
inductive BudgetErr
  | validation (msg : String)
  | integrity (msg : String)
deriving DecidableEq, Repr

/-- The message of the `IntegrityError` raised by the store's
`unique_together ("user", "category", "cycle_month")` constraint. -/
def dupBudgetMsg : String :=
  "UNIQUE constraint failed: Budget.user_id, Budget.category, Budget.cycle_month"

/-- `create_budget` for an authenticated user: serializer validation of
the category choice, then the insert guarded by the store-level unique
constraint.  On success returns the new table contents. -/
def budget_create (budgets : List BudgetRow) (userId : Nat) (category : String)
    (amount : Int) (cycle_month : Date) : Except BudgetErr (List BudgetRow) :=
  if category ∉ categoryCodes then
    .error (.validation "category is not a valid choice")
  else if ∃ b ∈ budgets, b.user_id = userId ∧ b.category = category ∧
      b.cycle_month = cycle_month then
    .error (.integrity dupBudgetMsg)
  else
    .ok (budgets ++ [⟨budgets.length + 1, userId, category, amount, cycle_month⟩])

/-- The `Budget` table contents after a `create_budget` request: changed
only when the insert succeeded. -/
def budget_create_state (budgets : List BudgetRow) (userId : Nat)
    (category : String) (amount : Int) (cycle_month : Date) : List BudgetRow :=
  match budget_create budgets userId category amount cycle_month with
  | .ok budgets2 => budgets2
  | .error _ => budgets

/-- Two budget rows with the same `(user, category, cycle_month)`
triple, the key of the `unique_together` constraint. -/
def sameTriple (a b : BudgetRow) : Prop :=
  a.user_id = b.user_id ∧ a.category = b.category ∧ a.cycle_month = b.cycle_month

/-- The uniqueness invariant: no two rows of the `Budget` table share a
`(user, category, cycle_month)` triple. -/
def uniqueTriples (budgets : List BudgetRow) : Prop :=
  budgets.Pairwise fun a b => ¬ sameTriple a b

/-- `Budget` table states reachable through `create_budget` from the
empty table. -/
inductive BudgetReachable : List BudgetRow → Prop
  | empty : BudgetReachable []
  | create {s s2 : List BudgetRow} {userId : Nat} {category : String}
      {amount : Int} {cycle_month : Date} :
      BudgetReachable s →
      budget_create s userId category amount cycle_month = .ok s2 →
      BudgetReachable s2

theorem budget_create_ok {s s2 : List BudgetRow} {userId : Nat}
    {category : String} {amount : Int} {cycle_month : Date}
    (hc : budget_create s userId category amount cycle_month = .ok s2) :
    category ∈ categoryCodes ∧
    (¬ ∃ b ∈ s, b.user_id = userId ∧ b.category = category ∧
      b.cycle_month = cycle_month) ∧
    s2 = s ++ [⟨s.length + 1, userId, category, amount, cycle_month⟩] := by
  unfold budget_create at hc
  split at hc
  · exact absurd hc (by simp)
  · split at hc
    · exact absurd hc (by simp)
    · rename_i h1 h2
      simp only [Except.ok.injEq] at hc
      exact ⟨not_not.mp h1, h2, hc.symm⟩

theorem budgetReachable_unique {s : List BudgetRow} (h : BudgetReachable s) :
    uniqueTriples s := by
  induction h with
  | empty => exact List.Pairwise.nil
  | create hr hc ih =>
    obtain ⟨hcat, hnodup, rfl⟩ := budget_create_ok hc
    refine List.pairwise_append.mpr ⟨ih, List.pairwise_singleton _ _, ?_⟩
    intro a ha b hb
    simp only [List.mem_singleton] at hb
    subst hb
    exact fun hab => hnodup ⟨a, ha, hab.1, hab.2.1, hab.2.2⟩

theorem budgetReachable_categories {s : List BudgetRow} (h : BudgetReachable s) :
    ∀ b ∈ s, b.category ∈ categoryCodes := by
  induction h with
  | empty => intro b hb; cases hb
  | create hr hc ih =>
    obtain ⟨hcat, _, rfl⟩ := budget_create_ok hc
    intro b hb
    rcases List.mem_append.mp hb with hmem | hmem
    · exact ih b hmem
    · simp only [List.mem_singleton] at hmem
      subst hmem
      exact hcat

/-- C3 (amended): every reachable `Budget` table has at most one row per
`(user, category, cycle_month)` triple; creating a budget whose triple
already exists fails through the store-level unique constraint with an
`IntegrityError` — not a serializer validation error — and adds no row. -/
theorem budget_uniqueness (s : List BudgetRow) (userId : Nat)
    (category : String) (amount : Int) (cycle_month : Date)
    (hr : BudgetReachable s)
    (hdup : ∃ b ∈ s, b.user_id = userId ∧ b.category = category ∧
      b.cycle_month = cycle_month) :
    uniqueTriples s ∧
    budget_create s userId category amount cycle_month =
      .error (.integrity dupBudgetMsg) ∧
    budget_create_state s userId category amount cycle_month = s := by
  obtain ⟨b, hb, hbu, hbc, hbm⟩ := hdup
  have hcat : category ∈ categoryCodes := hbc ▸ budgetReachable_categories hr b hb
  have herr : budget_create s userId category amount cycle_month =
      .error (.integrity dupBudgetMsg) := by
    unfold budget_create
    rw [if_neg (not_not_intro hcat), if_pos ⟨b, hb, hbu, hbc, hbm⟩]
  exact ⟨budgetReachable_unique hr, herr, by simp [budget_create_state, herr]⟩

/-- The target month used in the concrete budget scenarios. -/
def exDate : Date := ⟨2025, 9, 1⟩

/-- A one-row `Budget` table holding user 1's food budget for September
2025, reached by one successful `create_budget`. -/
def exBudgets : List BudgetRow := [⟨1, 1, "food", 500, exDate⟩]

/-- Witness for C3: the one-row table above is reachable, satisfies the
invariant, and re-creating (user 1, "food", September 2025) fails with
the integrity error, leaving the table unchanged. -/
theorem budget_uniqueness_witness :
    uniqueTriples exBudgets ∧
    budget_create exBudgets 1 "food" 700 exDate =
      .error (.integrity dupBudgetMsg) ∧
    budget_create_state exBudgets 1 "food" 700 exDate = exBudgets :=
  budget_uniqueness exBudgets 1 "food" 700 exDate
    (@BudgetReachable.create [] exBudgets 1 "food" 500 exDate
      BudgetReachable.empty (by decide))
    ⟨⟨1, 1, "food", 500, exDate⟩, by decide, rfl, rfl, rfl⟩

/-- Recognizer for the serializer-validation kind of failure. -/
def isValidationErr : Except BudgetErr (List BudgetRow) → Bool
  | .error (.validation _) => true
  | _ => false

/-- Counterexample to C3 as stated: with user 1's food budget for
September 2025 already stored, creating the same triple again fails with
the store-level `IntegrityError`, not with a validation error. -/
theorem budget_duplicate_not_validation_error :
    budget_create exBudgets 1 "food" 700 exDate =
      .error (.integrity dupBudgetMsg) ∧
    isValidationErr (budget_create exBudgets 1 "food" 700 exDate) = false := by
  exact ⟨by decide, by decide⟩

/-! ## Accounts (`accounts/models.py`, `accounts/serializers.py`, `accounts/views.py`) -/

/-- A row of the `User` table (`accounts/models.py`): surrogate id,
unique username, optional names and the stored password hash.  The
auto-set `created_date` plays no role in any claim. -/
structure UserRow where
  user_id : Nat
  username : String
  first_name : String
  last_name : String
  password : String
deriving DecidableEq, Repr

/-- The public profile a successful login returns: exactly
`user_id`, `username`, `first_name`, `last_name` — the stored password
hash is not part of this record. -/
structure Profile where
  user_id : Nat
  username : String
  first_name : String
  last_name : String
deriving DecidableEq, Repr

/-- An HTTP response from `LoginView.post`: status code, `success` flag,
message and optional profile payload. -/
structure LoginResponse where
  status : Nat
  success : Bool
  message : String
  data : Option Profile
deriving DecidableEq, Repr

/-- `LoginView.post` from `accounts/views.py`.  `verify` stands for
Django's `check_password(plain, stored_hash)` capability; the user lookup
is `User.objects.get(username=username)` (username is unique, so the
first match is the only one). -/
def login (verify : String → String → Bool) (users : List UserRow)
    (username password : String) : LoginResponse :=
  if username = "" ∨ password = "" then
    ⟨400, false, "กรุณากรอก username และ password", none⟩
  else
    match users.find? fun w => w.username == username with
    | none => ⟨404, false, "ไม่พบผู้ใช้", none⟩
    | some u =>
      if verify password u.password then
        ⟨200, true, "เข้าสู่ระบบสำเร็จ",
         some ⟨u.user_id, u.username, u.first_name, u.last_name⟩⟩
      else
        ⟨400, false, "รหัสผ่านไม่ถูกต้อง", none⟩

/-- C8: with both fields supplied, an unknown username gets the 404
"not found" response; a known username with a password failing hash
verification gets the distinct 400 wrong-password response; a matching
pair gets the 200 response whose payload is the public profile (id,
username, names) and carries no password field. -/
theorem login_outcomes (verify : String → String → Bool) (users : List UserRow)
    (username password : String) (hu : username ≠ "") (hp : password ≠ "") :
    ((users.find? fun w => w.username == username) = none →
      login verify users username password = ⟨404, false, "ไม่พบผู้ใช้", none⟩) ∧
    (∀ u, (users.find? fun w => w.username == username) = some u →
      verify password u.password = false →
      login verify users username password =
        ⟨400, false, "รหัสผ่านไม่ถูกต้อง", none⟩) ∧
    (∀ u, (users.find? fun w => w.username == username) = some u →
      verify password u.password = true →
      login verify users username password =
        ⟨200, true, "เข้าสู่ระบบสำเร็จ",
         some ⟨u.user_id, u.username, u.first_name, u.last_name⟩⟩) ∧
    (⟨404, false, "ไม่พบผู้ใช้", none⟩ : LoginResponse) ≠
      ⟨400, false, "รหัสผ่านไม่ถูกต้อง", none⟩ := by
  have hne : ¬(username = "" ∨ password = "") := by
    rintro (h | h)
    · exact hu h
    · exact hp h
  refine ⟨?_, ?_, ?_, by decide⟩
  · intro hfind
    simp [login, hne, hfind]
  · intro u hfind hv
    simp [login, hne, hfind, hv]
  · intro u hfind hv
    simp [login, hne, hfind, hv]

/-- A concrete stand-in for Django's password hasher in the witnesses:
the stored digest is the plain password behind a fixed prefix. -/
def exHash (plain : String) : String := "pbkdf2_sha256$" ++ plain

/-- The matching `check_password` capability for `exHash`. -/
def exVerify (plain hashed : String) : Bool := hashed == exHash plain

/-- A one-user table: alice, registered with password "pw123456". -/
def exUsers : List UserRow := [⟨1, "alice", "Alice", "Smith", exHash "pw123456"⟩]

/-- Witness for C8: the three login outcomes on the concrete one-user
table — unknown username, wrong password, and correct credentials. -/
theorem login_outcomes_witness :
    login exVerify exUsers "bob" "pw123456" = ⟨404, false, "ไม่พบผู้ใช้", none⟩ ∧
    login exVerify exUsers "alice" "wrongpw" =
      ⟨400, false, "รหัสผ่านไม่ถูกต้อง", none⟩ ∧
    login exVerify exUsers "alice" "pw123456" =
      ⟨200, true, "เข้าสู่ระบบสำเร็จ", some ⟨1, "alice", "Alice", "Smith"⟩⟩ :=
  ⟨(login_outcomes exVerify exUsers "bob" "pw123456" (by decide) (by decide)).1
     (by decide),
   (login_outcomes exVerify exUsers "alice" "wrongpw" (by decide) (by decide)).2.1
     ⟨1, "alice", "Alice", "Smith", exHash "pw123456"⟩ (by decide) (by decide),
   (login_outcomes exVerify exUsers "alice" "pw123456" (by decide) (by decide)).2.2.1
     ⟨1, "alice", "Alice", "Smith", exHash "pw123456"⟩ (by decide) (by decide)⟩

/-! ## Registration (`UserCreateSerializer`, `CreateUserView.create`) -/

/-- The validation failures `UserCreateSerializer` can raise: the
`validate_username` duplicate check, the password field's `min_length=6`,
and the object-level `validate` comparing the two password fields. -/
inductive RegErr
  | username_taken (msg : String)
  | password_too_short (msg : String)
  | password_mismatch (msg : String)
deriving DecidableEq, Repr

/-- `CreateUserView.create` running `UserCreateSerializer`: the duplicate
username check (`User.objects.filter(username=value).exists()`, an exact
case-sensitive string match), the password `min_length=6`, and the
password/password_confirm comparison; on success the row is stored with
`make_password(password)` (modelled by `hash`) and `password_confirm`
dropped. -/
def register (hash : String → String) (users : List UserRow)
    (username password password_confirm first_name last_name : String) :
    Except RegErr (List UserRow × UserRow) :=
  if ∃ u ∈ users, u.username = username then
    .error (.username_taken "ชื่อผู้ใช้นี้มีอยู่แล้ว")
  else if password.length < 6 then
    .error (.password_too_short "รหัสผ่านอย่างน้อย 6 ตัวอักษร")
  else if password ≠ password_confirm then
    .error (.password_mismatch "รหัสผ่านไม่ตรงกัน")
  else
    let newUser : UserRow :=
      ⟨users.length + 1, username, first_name, last_name, hash password⟩
    .ok (users ++ [newUser], newUser)

/-- The `User` table contents after a registration request: changed only
when the serializer accepted the input. -/
def register_state (hash : String → String) (users : List UserRow)
    (username password password_confirm first_name last_name : String) :
    List UserRow :=
  match register hash users username password password_confirm
      first_name last_name with
  | .ok (users2, _) => users2
  | .error _ => users

/-- C9: registering a username already present (exact case-sensitive
match) fails with the duplicate-username validation error and leaves the
stored user table unchanged — no second row is created. -/
theorem register_duplicate_username (hash : String → String)
    (users : List UserRow)
    (username password password_confirm first_name last_name : String)
    (hdup : ∃ u ∈ users, u.username = username) :
    register hash users username password password_confirm
        first_name last_name =
      .error (.username_taken "ชื่อผู้ใช้นี้มีอยู่แล้ว") ∧
    register_state hash users username password password_confirm
        first_name last_name = users := by
  have herr : register hash users username password password_confirm
      first_name last_name =
        .error (.username_taken "ชื่อผู้ใช้นี้มีอยู่แล้ว") := by
    unfold register
    rw [if_pos hdup]
  exact ⟨herr, by simp [register_state, herr]⟩

/-- Witness for C9: registering "alice" again on the one-user table
fails and leaves the table as it was. -/
theorem register_duplicate_username_witness :
    register exHash exUsers "alice" "newpw123" "newpw123" "" "" =
      .error (.username_taken "ชื่อผู้ใช้นี้มีอยู่แล้ว") ∧
    register_state exHash exUsers "alice" "newpw123" "newpw123" "" "" = exUsers :=
  register_duplicate_username exHash exUsers "alice" "newpw123" "newpw123" "" ""
    ⟨⟨1, "alice", "Alice", "Smith", exHash "pw123456"⟩, by decide, rfl⟩

/-- C10: beyond the spec, registration demands `password_confirm` equal
to `password` and a password of at least 6 characters; whenever either
rule is broken the serializer rejects the request with a validation
error and no user row is created. -/
theorem register_password_rules (hash : String → String)
    (users : List UserRow)
    (username password password_confirm first_name last_name : String)
    (hbad : password ≠ password_confirm ∨ password.length < 6) :
    (∃ e, register hash users username password password_confirm
      first_name last_name = .error e) ∧
    register_state hash users username password password_confirm
        first_name last_name = users := by
  have herr : ∃ e, register hash users username password password_confirm
      first_name last_name = .error e := by
    unfold register
    by_cases hdup : ∃ u ∈ users, u.username = username
    · exact ⟨_, by rw [if_pos hdup]⟩
    · rw [if_neg hdup]
      by_cases hlen : password.length < 6
      · exact ⟨_, by rw [if_pos hlen]⟩
      · rw [if_neg hlen]
        have hne : password ≠ password_confirm := by
          rcases hbad with h | h
          · exact h
          · exact absurd h hlen
        exact ⟨_, by rw [if_pos hne]⟩
  obtain ⟨e, he⟩ := herr
  exact ⟨⟨e, he⟩, by simp [register_state, he]⟩

/-- Witness for C10: a 3-character password is rejected on the empty
user table and no row appears. -/
theorem register_password_rules_witness :
    (∃ e, register exHash [] "carol" "abc" "abc" "" "" = .error e) ∧
    register_state exHash [] "carol" "abc" "abc" "" "" = [] :=
  register_password_rules exHash [] "carol" "abc" "abc" "" ""
    (Or.inr (by decide))

/-! ## Remaining witnesses for the router claims -/

/-- Witness for C5: `allow_migrate` evaluated through the placement
rule at a privileged app on the secondary instance and an unprivileged
app on the primary instance. -/
theorem migrate_placement_decision_witness :
    allow_migrate "supabase" "accounts" = true ∧
    allow_migrate "default" "blog" = true :=
  ⟨(migrate_placement_decision "supabase" "accounts").mpr
     (Or.inl ⟨by decide, rfl⟩),
   (migrate_placement_decision "default" "blog").mpr
     (Or.inr ⟨by decide, rfl⟩)⟩

/-- Witness for C6: `allow_relation` on two known aliases, on one
unknown alias, and the never-`False` guarantee at an unknown alias. -/
theorem relation_decision_witness :
    allow_relation "default" "supabase" = some true ∧
    allow_relation "default" "other" = none ∧
    allow_relation "other" "supabase" ≠ some false :=
  ⟨(relation_decision "default" "supabase").1.mpr ⟨by decide, by decide⟩,
   (relation_decision "default" "other").2.1.mpr (Or.inr (by decide)),
   (relation_decision "other" "supabase").2.2⟩

end BudgetBuddy
